import Mathlib

/-!
Verification development for the interviewer duration & performance pipeline
(`summary.py`).  The script is a pandas batch pipeline: parse timestamps and
drop unparseable rows, compute truncated elapsed minutes, classify DK/RF/NA
response-code suffixes over the question columns, reshape wide interviewer
role columns to a long table, aggregate per interviewer id, sort numerically,
format display columns and export a single-sheet workbook.

Modelling conventions:
* a pandas cell is `Option String`: `none` is a missing value (`NaN`),
  `some s` a value whose string form (Python `str(val)`) is `s`;
* `pd.to_datetime(..., errors="coerce", utc=True)` is an external parser; its
  outcome is modelled as an `Option Int` field (whole seconds since the
  epoch, `none` for `NaT`);
* Python string operations (`startswith`, `endswith`, `strip`, `replace`)
  are modelled by executable functions over the character list of a string;
* the float mean columns produced by `groupby(...).agg(...)` are kept in
  exact form: the group keeps its integer sum together with its size, and
  the value of the pandas column is the rational `meanQ sum size`;
* `numpy`/`pandas` rounding (`round`, `astype(int)`) is half-to-even or
  truncation toward zero on exact rationals, given both as executable
  integer programs and as rational-valued specifications, with bridging
  theorems.
-/

namespace SummaryPipeline

/-- A pandas cell: `none` is missing (`NaN`), `some s` holds the string form
of the value. -/
abbrev Cell := Option String

/-- A row's named cells: association list from column name to cell.  A column
that does not occur is missing. -/
abbrev Row := List (String × Cell)

/-- Cell of column `c` in row `r`. -/
def getCell (r : Row) (c : String) : Cell :=
  match r.lookup c with
  | some v => v
  | none => none

/-- Python `s.startswith(p)`, over character lists. -/
def pyStartsWith (s p : String) : Bool :=
  p.toList.isPrefixOf s.toList

/-- Python `s.endswith(p)`, over character lists. -/
def pyEndsWith (s p : String) : Bool :=
  p.toList.reverse.isPrefixOf s.toList.reverse

/-- Python `s.strip()`: remove leading and trailing whitespace. -/
def pyStrip (s : String) : String :=
  String.mk (((s.toList.dropWhile fun c => c.isWhitespace).reverse.dropWhile
      fun c => c.isWhitespace).reverse)

/-- Helper for `pyRemoveAll`: scan the character list, deleting every
occurrence of `pat`; `skip` counts characters of a matched occurrence that
still have to be dropped. -/
def removeAllAux (pat : List Char) : List Char → Nat → List Char
  | [], _ => []
  | _ :: cs, k + 1 => removeAllAux pat cs k
  | c :: cs, 0 =>
      if pat.isPrefixOf (c :: cs) then removeAllAux pat cs (pat.length - 1)
      else c :: removeAllAux pat cs 0

/-- Python `s.replace(pat, "")` (used with the nonempty pattern
`"IntName_W4"`): delete every occurrence of `pat` from `s`. -/
def pyRemoveAll (s pat : String) : String :=
  String.mk (removeAllAux pat.toList s.toList 0)

/-- One raw input row.  `ID` is the respondent identifier cell; `Start_dt`
and `End_dt` are the outcomes of `pd.to_datetime` on `StartTime_TS` and
`EndTime_TS` in whole seconds (`none` models `NaT`, the coerced outcome of an
unparseable value); `cells` holds all remaining columns by name. -/
structure InRow where
  ID : Cell
  Start_dt : Option Int
  End_dt : Option Int
  cells : Row
deriving DecidableEq

/-- The raw table: its ordered column-name list and its rows. -/
structure InTable where
  cols : List String
  rows : List InRow
deriving DecidableEq

/-- `prefixes = ["F", "M", "HH", "ORGHH", "C"]`. -/
def prefixes : List String := ["F", "M", "HH", "ORGHH", "C"]

/-- Columns starting with a configured role marker and ending with
`"IntName_W4"`. -/
def interviewer_name_cols (cols : List String) : List String :=
  cols.filter fun c =>
    (prefixes.any fun p => pyStartsWith c p) && pyEndsWith c ("IntName_W4")

/-- Columns starting with a configured role marker and ending with
`"IntID_W4"`. -/
def interviewer_id_cols (cols : List String) : List String :=
  cols.filter fun c =>
    (prefixes.any fun p => pyStartsWith c p) && pyEndsWith c ("IntID_W4")

/-- `exclude_cols`: fixed columns plus all interviewer name/id columns. -/
def exclude_cols (cols : List String) : List String :=
  ["ID", "StartTime_TS", "EndTime_TS", "Start_dt", "End_dt",
   "duration_minutes", "duration_display"]
    ++ interviewer_name_cols cols ++ interviewer_id_cols cols

/-- `question_cols`: every column not excluded. -/
def question_cols (cols : List String) : List String :=
  cols.filter fun c => !((exclude_cols cols).contains c)

/-- `df[question_cols].replace(r"^\s*$", np.nan, regex=True)`: an empty or
whitespace-only string cell becomes missing. -/
def normalizeBlank (v : Cell) : Cell :=
  match v with
  | none => none
  | some s => if pyStrip s = ("") then none else some s

/-- Question cell of a row, after the blank-normalization step. -/
def qcell (r : Row) (c : String) : Cell :=
  normalizeBlank (getCell r c)

/-- `is_dk`: a missing value is not DK; otherwise the trimmed string form
ends with `"97"`. -/
def is_dk (v : Cell) : Bool :=
  match v with
  | none => false
  | some s => pyEndsWith (pyStrip s) ("97")

/-- `is_rf`: a missing value is not RF; otherwise the trimmed string form
ends with `"99"`. -/
def is_rf (v : Cell) : Bool :=
  match v with
  | none => false
  | some s => pyEndsWith (pyStrip s) ("99")

/-- `is_na`: a missing value is not NA; otherwise the trimmed string form
ends with `"98"`. -/
def is_na (v : Cell) : Bool :=
  match v with
  | none => false
  | some s => pyEndsWith (pyStrip s) ("98")

/-- `DK_count`: number of question cells of the row classified DK. -/
def DK_count (qcols : List String) (r : Row) : Nat :=
  ((qcols.map fun c => qcell r c).countP fun v => is_dk v)

/-- `RF_count`: number of question cells of the row classified RF. -/
def RF_count (qcols : List String) (r : Row) : Nat :=
  ((qcols.map fun c => qcell r c).countP fun v => is_rf v)

/-- `NA_count`: number of question cells of the row classified NA. -/
def NA_count (qcols : List String) (r : Row) : Nat :=
  ((qcols.map fun c => qcell r c).countP fun v => is_na v)

/-- `questions_answered`: number of non-missing question cells of the row
(after blank normalization). -/
def questions_answered (qcols : List String) (r : Row) : Nat :=
  ((qcols.map fun c => qcell r c).countP fun v => v.isSome)

/-- `duration_minutes`: the script computes
`((End_dt - Start_dt).dt.total_seconds() / 60).astype(int)`; the numpy
float-to-int cast truncates toward zero, so for whole-second timestamps the
value is the t-division (truncation toward zero) of the elapsed seconds by
60. -/
def duration_minutes (s e : Int) : Int :=
  Int.tdiv (e - s) 60

/-- Truncation of a rational toward zero: the semantics of numpy's
float-to-int cast, and the spec's `floor_toward_zero`. -/
def truncQ (q : ℚ) : Int :=
  if 0 ≤ q then ⌊q⌋ else -⌊-q⌋

/-- A row after `dropna(subset=["Start_dt", "End_dt"])` and the duration and
classification assignments: both timestamps are present. -/
structure EnrRow where
  ID : Cell
  Start_dt : Int
  End_dt : Int
  dur_min : Int
  DKs : Nat
  RFs : Nat
  NAs : Nat
  cells : Row
deriving DecidableEq

/-- The enrichment of a single raw row: `none` when either timestamp is
missing (the row is dropped by `dropna`), otherwise the row with
`duration_minutes` and the `DK_count`/`RF_count`/`NA_count` columns. -/
def enrichRow (cols : List String) (r : InRow) : Option EnrRow :=
  match r.Start_dt, r.End_dt with
  | some s, some e =>
      some { ID := r.ID, Start_dt := s, End_dt := e,
             dur_min := duration_minutes s e,
             DKs := DK_count (question_cols cols) r.cells,
             RFs := RF_count (question_cols cols) r.cells,
             NAs := NA_count (question_cols cols) r.cells,
             cells := r.cells }
  | _, _ => none

/-- The rows surviving `dropna(subset=["Start_dt", "End_dt"])`, enriched with
`duration_minutes` and the `DK_count`/`RF_count`/`NA_count` columns. -/
def enrichedRows (t : InTable) : List EnrRow :=
  t.rows.filterMap fun r => enrichRow t.cols r

/-- One row of the displayed duration-check table
`df[["ID"] + interviewer_id_cols + interviewer_name_cols + ["Start_dt", "End_dt", "duration_minutes"]]`. -/
structure DCRow where
  ID : Cell
  idCells : List Cell
  nameCells : List Cell
  Start_dt : Int
  End_dt : Int
  dur_min : Int
deriving DecidableEq

/-- The duration-check display table. -/
def durationCheck (t : InTable) : List DCRow :=
  (enrichedRows t).map fun x =>
    { ID := x.ID,
      idCells := (interviewer_id_cols t.cols).map fun c => getCell x.cells c,
      nameCells := (interviewer_name_cols t.cols).map fun c => getCell x.cells c,
      Start_dt := x.Start_dt, End_dt := x.End_dt, dur_min := x.dur_min }

/-- One row of the long interviewer table.  `temp` also carries the question
columns, but they are used only to compute `questions_answered`, which is
carried here; no later stage reads them. -/
structure LongRow where
  IntID : Cell
  IntName : Cell
  dur_min : Int
  DKs : Nat
  RFs : Nat
  NAs : Nat
  qAnswered : Nat
deriving DecidableEq

/-- The (name column, id column) pairs the reshape resolves: for each
interviewer name column, the first interviewer id column starting with the
role marker obtained by deleting `"IntName_W4"` from the name column
(`next((c for c in interviewer_id_cols if c.startswith(prefix)), None)`).
A name column whose lookup yields `None` is skipped. -/
def resolvedRoles (cols : List String) : List (String × String) :=
  (interviewer_name_cols cols).filterMap fun name_col =>
    match (interviewer_id_cols cols).find? fun c =>
        pyStartsWith c (pyRemoveAll name_col ("IntName_W4")) with
    | some id_col => some (name_col, id_col)
    | none => none

/-- The long-table row a role emits for an enriched row: rename the role's id
and name cells to `IntID`/`IntName`, copy duration and counts, and compute
`questions_answered` from the question cells. -/
def longOf (qcols : List String) (role : String × String) (x : EnrRow) : LongRow :=
  { IntID := getCell x.cells role.2,
    IntName := getCell x.cells role.1,
    dur_min := x.dur_min,
    DKs := x.DKs, RFs := x.RFs, NAs := x.NAs,
    qAnswered := questions_answered qcols x.cells }

/-- `long_df = pd.concat(all_interviewer_data, ignore_index=True)`: one block
per resolved role, each block one row per retained respondent, concatenated
in role order with no deduplication.  `pd.concat` raises
`ValueError("No objects to concatenate")` when the list is empty, which the
`Except` error models. -/
def long_df (t : InTable) : Except String (List LongRow) :=
  let parts := (resolvedRoles t.cols).map fun role =>
    (enrichedRows t).map fun x => longOf (question_cols t.cols) role x
  if parts.isEmpty then Except.error ("No objects to concatenate")
  else Except.ok parts.flatten

/-- The group of long rows with a given (non-missing) interviewer id. -/
def groupOf (l : List LongRow) (k : String) : List LongRow :=
  l.filter fun x => x.IntID == some k

/-- Lexicographic comparison of character lists by code point: the order in
which pandas sorts string group keys. -/
def charListLe : List Char → List Char → Bool
  | [], _ => true
  | _ :: _, [] => false
  | a :: as, b :: bs => if a < b then true else if b < a then false else charListLe as bs

/-- The keys of `groupby("IntID", as_index=False)`: the distinct non-missing
ids, in ascending order (pandas sorts group keys and drops missing ones). -/
def groupKeys (l : List LongRow) : List String :=
  List.insertionSort (fun a b : String => charListLe a.toList b.toList = true)
    ((l.filterMap fun x => x.IntID).dedup)

/-- The exact value of a pandas float mean column: sum over size. -/
def meanQ (a : Int) (n : Nat) : ℚ :=
  (a : ℚ) / (n : ℚ)

/-- Minimum of a list of integers (`min` aggregation; the empty default is
never used: every group is nonempty). -/
def listMinD : List Int → Int
  | [] => 0
  | [x] => x
  | x :: y :: ys => min x (listMinD (y :: ys))

/-- Maximum of a list of integers (`max` aggregation). -/
def listMaxD : List Int → Int
  | [] => 0
  | [x] => x
  | x :: y :: ys => max x (listMaxD (y :: ys))

/-- One row of `final_df` straight out of the aggregation.  The two float
mean columns `avg_duration_minutes` and `avg_questions` are kept exactly as
sum-and-size (`dur_sum`/`q_sum` with `total_interviews`); their pandas value
is `meanQ dur_sum total_interviews` and `meanQ q_sum total_interviews`. -/
structure SumRow where
  IntID : String
  IntName : Cell
  total_interviews : Nat
  dur_sum : Int
  min_duration_minutes : Int
  max_duration_minutes : Int
  q_sum : Nat
  total_DK : Nat
  total_RF : Nat
  total_NA : Nat
deriving DecidableEq

/-- The pandas value of the `avg_duration_minutes` column. -/
def SumRow.avg_duration_minutes (s : SumRow) : ℚ :=
  meanQ s.dur_sum s.total_interviews

/-- The pandas value of the `avg_questions` column before formatting. -/
def SumRow.avg_questions_mean (s : SumRow) : ℚ :=
  meanQ (s.q_sum : Int) s.total_interviews

/-- The aggregation row for one group key: `IntName` is pandas `"first"`
(first non-missing name in the group); `total_interviews` is
`("duration_minutes", "count")`, the number of non-missing durations, which
is the group size because retained rows always have a duration; min/max over
durations; sums of the three code counts. -/
def mkSum (l : List LongRow) (k : String) : SumRow :=
  { IntID := k,
    IntName := ((groupOf l k).filterMap fun x => x.IntName).head?,
    total_interviews := (groupOf l k).length,
    dur_sum := ((groupOf l k).map fun x => x.dur_min).sum,
    min_duration_minutes := listMinD ((groupOf l k).map fun x => x.dur_min),
    max_duration_minutes := listMaxD ((groupOf l k).map fun x => x.dur_min),
    q_sum := ((groupOf l k).map fun x => x.qAnswered).sum,
    total_DK := ((groupOf l k).map fun x => x.DKs).sum,
    total_RF := ((groupOf l k).map fun x => x.RFs).sum,
    total_NA := ((groupOf l k).map fun x => x.NAs).sum }

/-- Digits of a character list read as a natural number (helper for the
numeric parse). -/
def natOfDigits (cs : List Char) : Nat :=
  cs.foldl (fun n c => 10 * n + (c.toNat - 48)) 0

/-- All characters are decimal digits. -/
def allDigits (cs : List Char) : Bool :=
  cs.all fun c => c.isDigit

/-- `pd.to_numeric(..., errors="coerce")` on an id string, modelled for
optionally signed integer and plain decimal literals (the formats at play
for interviewer ids); any other string coerces to `NaN` (`none`).  The
parsed value `ip.fp` is the exact rational `(ip·10^k + fp) / 10^k`. -/
def toNumeric (s : String) : Option ℚ :=
  let s1 := (pyStrip s).toList
  let (neg, s2) :=
    match s1 with
    | c :: rest => if c = ('-' : Char) then (true, rest)
        else if c = ('+' : Char) then (false, rest) else (false, s1)
    | [] => (false, s1)
  let ip := s2.takeWhile fun c => c.isDigit
  let rest := s2.dropWhile fun c => c.isDigit
  let q? : Option ℚ :=
    match rest with
    | [] => if ip.isEmpty then none else some (mkRat (natOfDigits ip) 1)
    | c :: fp =>
        if c = ('.' : Char) && allDigits fp && !(ip.isEmpty && fp.isEmpty) then
          some (mkRat (natOfDigits ip * 10 ^ fp.length + natOfDigits fp) (10 ^ fp.length))
        else none
  match q? with
  | none => none
  | some q => some (if neg then -q else q)

/-- Order on parsed sort keys: `sort_values("IntID_sort")` sorts ascending
with `NaN` (failed parses) last. -/
def numLe (a b : Option ℚ) : Prop :=
  match a, b with
  | some x, some y => x ≤ y
  | some _, none => True
  | none, some _ => False
  | none, none => True

instance (a b : Option ℚ) : Decidable (numLe a b) :=
  match a, b with
  | some x, some y => inferInstanceAs (Decidable (x ≤ y))
  | some _, none => Decidable.isTrue trivial
  | none, some _ => Decidable.isFalse id
  | none, none => Decidable.isTrue trivial

/-- Row order of the summary sort: by interviewer id parsed as a number. -/
def sumLe (a b : SumRow) : Prop :=
  numLe (toNumeric a.IntID) (toNumeric b.IntID)

instance (a b : SumRow) : Decidable (sumLe a b) :=
  inferInstanceAs (Decidable (numLe (toNumeric a.IntID) (toNumeric b.IntID)))

/-- `final_df` after
`final_df["IntID_sort"] = pd.to_numeric(final_df["IntID"], errors="coerce")`
and `final_df.sort_values("IntID_sort")`: one aggregation row per group key,
ordered by the parsed numeric key. -/
def sortedSummary (l : List LongRow) : List SumRow :=
  List.insertionSort sumLe ((groupKeys l).map fun k => mkSum l k)

/-- Round-half-to-even of the fraction `a / b` (`b > 0`), as an integer
program: `f` is the floor quotient, `r` the remainder, and `2r` is compared
against `b`.  This is the exact value of numpy `round` on the float `a / b`. -/
def roundHalfEvenDiv (a : Int) (b : Nat) : Int :=
  let f := Int.fdiv a b
  let r := a - b * f
  if 2 * r < b then f
  else if (b : Int) < 2 * r then f + 1
  else if f % 2 = 0 then f else f + 1

/-- Round-half-to-even of a rational (numpy `round` semantics), specified
with the floor function. -/
def roundHalfEvenQ (q : ℚ) : Int :=
  if q - (⌊q⌋ : ℚ) < 1 / 2 then ⌊q⌋
  else if 1 / 2 < q - (⌊q⌋ : ℚ) then ⌊q⌋ + 1
  else if ⌊q⌋ % 2 = 0 then ⌊q⌋ else ⌊q⌋ + 1

/-- Decimal rendering of `n / 100` the way Python prints the rounded float:
at least one fractional digit, trailing zero of a two-digit fraction
dropped. -/
def showCenti (n : Int) : String :=
  let sign := if n < 0 then ("-") else ("")
  let m := n.natAbs
  let fr := m % 100
  let frs :=
    if fr % 10 == 0 then toString (fr / 10)
    else if fr < 10 then ("0") ++ toString fr
    else toString fr
  sign ++ toString (m / 100) ++ (".") ++ frs

/-- One row of `final_df` after the formatting block, as exported:
`avg_duration_display = str(avg.round(2)) + " min"`,
`min/max_duration_display = str(astype(int)) + " min"`,
`avg_questions = round(0).astype(int)` (half to even), counts as plain
integers.  The numeric mean column keeps its exact sum-and-size form. -/
structure OutRow where
  IntID : String
  IntName : Cell
  total_interviews : Nat
  dur_sum : Int
  min_duration_minutes : Int
  max_duration_minutes : Int
  avg_questions : Int
  total_DK : Nat
  total_RF : Nat
  total_NA : Nat
  avg_duration_display : String
  min_duration_display : String
  max_duration_display : String
deriving DecidableEq

/-- The formatting block applied to one aggregation row. -/
def formatRow (s : SumRow) : OutRow :=
  { IntID := s.IntID, IntName := s.IntName,
    total_interviews := s.total_interviews,
    dur_sum := s.dur_sum,
    min_duration_minutes := s.min_duration_minutes,
    max_duration_minutes := s.max_duration_minutes,
    avg_questions := roundHalfEvenDiv (s.q_sum : Int) s.total_interviews,
    total_DK := s.total_DK, total_RF := s.total_RF, total_NA := s.total_NA,
    avg_duration_display :=
      showCenti (roundHalfEvenDiv (100 * s.dur_sum) s.total_interviews) ++ (" min"),
    min_duration_display := toString s.min_duration_minutes ++ (" min"),
    max_duration_display := toString s.max_duration_minutes ++ (" min") }

/-- The formatted, sorted summary rows. -/
def outRows (l : List LongRow) : List OutRow :=
  (sortedSummary l).map fun s => formatRow s

/-- The summary rows the whole pipeline produces for an input table. -/
def pipelineOut (t : InTable) : Except String (List OutRow) :=
  (long_df t).map fun l => outRows l

instance {ε α : Type} [DecidableEq ε] [DecidableEq α] : DecidableEq (Except ε α) :=
  fun a b =>
    match a, b with
    | Except.error e, Except.error f =>
        if h : e = f then Decidable.isTrue (by rw [h])
        else Decidable.isFalse (by intro hc; cases hc; exact h rfl)
    | Except.error _, Except.ok _ => Decidable.isFalse (by intro hc; cases hc)
    | Except.ok _, Except.error _ => Decidable.isFalse (by intro hc; cases hc)
    | Except.ok x, Except.ok y =>
        if h : x = y then Decidable.isTrue (by rw [h])
        else Decidable.isFalse (by intro hc; cases hc; exact h rfl)

/-- The column list of `final_df` at export time, in dataframe order: the
aggregation columns (`as_index=False` puts the key first), then the three
display columns appended by the formatting block.  `to_excel` writes all of
them. -/
def final_df_cols : List String :=
  ["IntID", "IntName", "total_interviews", "avg_duration_minutes",
   "min_duration_minutes", "max_duration_minutes", "avg_questions",
   "total_DK", "total_RF", "total_NA",
   "avg_duration_display", "min_duration_display", "max_duration_display"]

/-- A sheet of the exported workbook. -/
structure Sheet where
  title : String
  header : List String
  rows : List OutRow
deriving DecidableEq

/-- The exported workbook. -/
structure Workbook where
  sheets : List Sheet
deriving DecidableEq

/-- `final_df.to_excel(writer, index=False, sheet_name='Interviewer Stats')`
inside a single `ExcelWriter`: one sheet, all `final_df` columns, rows in the
sorted order. -/
def exportWorkbook (t : InTable) : Except String Workbook :=
  (long_df t).map fun l =>
    { sheets := [{ title := ("Interviewer Stats"), header := final_df_cols,
                   rows := outRows l }] }

/-- Does the row's id match one of the keys? -/
def idInKeys (ks : List String) (x : LongRow) : Bool :=
  match x.IntID with
  | some k => ks.contains k
  | none => false

instance : IsTotal SumRow sumLe where
  total a b := by
    unfold sumLe
    rcases toNumeric a.IntID with _ | x <;> rcases toNumeric b.IntID with _ | y
    · exact Or.inl trivial
    · exact Or.inr trivial
    · exact Or.inl trivial
    · rcases le_total x y with h | h
      · exact Or.inl h
      · exact Or.inr h

instance : IsTrans SumRow sumLe where
  trans a b c hab hbc := by
    unfold sumLe at hab hbc ⊢
    revert hab hbc
    rcases toNumeric a.IntID with _ | x <;> rcases toNumeric b.IntID with _ | y <;>
      rcases toNumeric c.IntID with _ | z <;> intro hab hbc
    · exact trivial
    · exact hbc.elim
    · exact hab.elim
    · exact hab.elim
    · exact trivial
    · exact hbc.elim
    · exact trivial
    · exact le_trans (show x ≤ y from hab) (show y ≤ z from hbc)

/-- Modelled from the spec: round half-up to the nearest integer (the spec's
stated default rounding for `avg_questions`). -/
def roundHalfUp (q : ℚ) : Int :=
  ⌊q + 1 / 2⌋

/-- The column list the specification claims for the exported sheet. -/
def claimedExportCols : List String :=
  ["IntID", "IntName", "total_interviews", "min_duration_display",
   "avg_duration_display", "max_duration_display", "avg_questions",
   "total_DK", "total_RF", "total_NA"]

/-! Concrete tables used as test inputs by the witnesses and
counterexamples below. -/

/-- Respondent interviewed by id `"5"`; the interview runs 1785 seconds
(29 min 45 s). -/
def r1 : InRow :=
  { ID := some ("1"), Start_dt := some 0, End_dt := some 1785,
    cells := [("FIntID_W4", some ("5")), ("FIntName_W4", some ("Alice")),
              ("Q1", some ("1"))] }

/-- Respondent interviewed by id `"3"`. -/
def r2 : InRow :=
  { ID := some ("2"), Start_dt := some 0, End_dt := some 60,
    cells := [("FIntID_W4", some ("3")), ("FIntName_W4", some ("Bob")),
              ("Q1", some ("197"))] }

/-- Two respondents, one role `"F"` with id values `"5"` and `"3"`. -/
def tBasic : InTable :=
  { cols := ["ID", "StartTime_TS", "EndTime_TS", "FIntID_W4", "FIntName_W4", "Q1"],
    rows := [r1, r2] }

/-- A table with no interviewer name columns at all. -/
def tNoRoles : InTable :=
  { cols := ["ID", "StartTime_TS", "EndTime_TS", "Q1"],
    rows :=
      [ { ID := some ("1"), Start_dt := some 0, End_dt := some 60,
          cells := [("Q1", some ("1"))] } ] }

/-- A table whose single role `"F"` has a name column but no id column. -/
def tNoIds : InTable :=
  { cols := ["ID", "StartTime_TS", "EndTime_TS", "FIntName_W4", "Q1"],
    rows :=
      [ { ID := some ("1"), Start_dt := some 0, End_dt := some 60,
          cells := [("FIntName_W4", some ("Alice")), ("Q1", some ("1"))] } ] }

/-- Two roles `"F"` and `"M"`; only `"M"` has an id column, so role `"F"`
is skipped. -/
def tTwoRolesOneId : InTable :=
  { cols := ["ID", "StartTime_TS", "EndTime_TS", "FIntName_W4",
             "MIntID_W4", "MIntName_W4", "Q1"],
    rows :=
      [ { ID := some ("1"), Start_dt := some 0, End_dt := some 60,
          cells := [("FIntName_W4", some ("Alice")), ("MIntID_W4", some ("4")),
                    ("MIntName_W4", some ("Carol")), ("Q1", some ("1"))] } ] }

/-- One role, both respondents interviewed by id `"7"`, answering 2 and 3
of the three questions: the mean questions-answered is 5/2. -/
def tHalf : InTable :=
  { cols := ["ID", "StartTime_TS", "EndTime_TS", "FIntID_W4", "FIntName_W4",
             "Q1", "Q2", "Q3"],
    rows :=
      [ { ID := some ("1"), Start_dt := some 0, End_dt := some 60,
          cells := [("FIntID_W4", some ("7")), ("FIntName_W4", some ("Dana")),
                    ("Q1", some ("1")), ("Q2", some ("2"))] },
        { ID := some ("2"), Start_dt := some 0, End_dt := some 120,
          cells := [("FIntID_W4", some ("7")), ("FIntName_W4", some ("Dana")),
                    ("Q1", some ("1")), ("Q2", some ("2")), ("Q3", some ("3"))] } ] }

/-- One role; the second respondent's id cell is missing, so its long-form
row belongs to no group. -/
def tMissingId : InTable :=
  { cols := ["ID", "StartTime_TS", "EndTime_TS", "FIntID_W4", "FIntName_W4", "Q1"],
    rows :=
      [ { ID := some ("1"), Start_dt := some 0, End_dt := some 60,
          cells := [("FIntID_W4", some ("7")), ("FIntName_W4", some ("Eve")),
                    ("Q1", some ("1"))] },
        { ID := some ("2"), Start_dt := some 0, End_dt := some 120,
          cells := [("FIntName_W4", some ("Frank")), ("Q1", some ("2"))] } ] }

/-- A row whose end timestamp does not parse. -/
def rBad : InRow :=
  { ID := some ("9"), Start_dt := some 0, End_dt := none,
    cells := [("FIntID_W4", some ("8")), ("FIntName_W4", some ("Grace")),
              ("Q1", some ("1"))] }

/-- `tBasic` with the unparseable row `rBad` inserted between the two good
rows. -/
def tDrop : InTable :=
  { cols := tBasic.cols, rows := [r1, rBad, r2] }

/-- The long table of `tBasic` (checked against `long_df` below). -/
def lBasic : List LongRow :=
  [ { IntID := some ("5"), IntName := some ("Alice"), dur_min := 29,
      DKs := 0, RFs := 0, NAs := 0, qAnswered := 1 },
    { IntID := some ("3"), IntName := some ("Bob"), dur_min := 1,
      DKs := 1, RFs := 0, NAs := 0, qAnswered := 1 } ]

/-- The long table of `tMissingId`: the second row has a missing id. -/
def lMissing : List LongRow :=
  [ { IntID := some ("7"), IntName := some ("Eve"), dur_min := 1,
      DKs := 0, RFs := 0, NAs := 0, qAnswered := 1 },
    { IntID := none, IntName := some ("Frank"), dur_min := 2,
      DKs := 0, RFs := 0, NAs := 0, qAnswered := 1 } ]

/-- The single summary row of `lMissing`, formatted. -/
def oMissing : OutRow :=
  formatRow (mkSum lMissing ("7"))

/-- The long table of `tHalf`: one group, questions-answered 2 and 3. -/
def lHalf : List LongRow :=
  [ { IntID := some ("7"), IntName := some ("Dana"), dur_min := 1,
      DKs := 0, RFs := 0, NAs := 0, qAnswered := 2 },
    { IntID := some ("7"), IntName := some ("Dana"), dur_min := 2,
      DKs := 0, RFs := 0, NAs := 0, qAnswered := 3 } ]

/-! Bridging lemmas between the executable integer programs and their
rational-valued specifications. -/

/-- T-division by a positive natural is truncation toward zero of the exact
rational quotient. -/
theorem tdiv_eq_truncQ (a : Int) (b : Nat) (hb : 0 < b) :
    Int.tdiv a b = truncQ ((a : ℚ) / (b : ℚ)) := by
  have hbQ : (0 : ℚ) < (b : ℚ) := by exact_mod_cast hb
  unfold truncQ
  rcases le_or_lt 0 a with ha | ha
  · have h0 : (0 : ℚ) ≤ (a : ℚ) / (b : ℚ) :=
      div_nonneg (by exact_mod_cast ha) (le_of_lt hbQ)
    rw [if_pos h0, Rat.floor_intCast_div_natCast,
      Int.tdiv_eq_ediv ha (by exact_mod_cast Nat.zero_le b)]
  · have h0 : ¬ (0 : ℚ) ≤ (a : ℚ) / (b : ℚ) := by
      push_neg
      exact div_neg_of_neg_of_pos (by exact_mod_cast ha) hbQ
    rw [if_neg h0]
    have hneg : -((a : ℚ) / (b : ℚ)) = ((-a : ℤ) : ℚ) / (b : ℚ) := by
      push_cast; ring
    rw [hneg, Rat.floor_intCast_div_natCast,
      ← Int.tdiv_eq_ediv (by omega) (by exact_mod_cast Nat.zero_le b),
      Int.neg_tdiv, neg_neg]

/-- The integer round-half-to-even program computes the rational
round-half-to-even of the mean. -/
theorem roundHalfEvenDiv_eq (a : Int) (b : Nat) (hb : 0 < b) :
    roundHalfEvenDiv a b = roundHalfEvenQ (meanQ a b) := by
  have hbZ : (0 : ℤ) < (b : ℤ) := by exact_mod_cast hb
  have hbQ : (0 : ℚ) < (b : ℚ) := by exact_mod_cast hb
  unfold roundHalfEvenDiv roundHalfEvenQ meanQ
  have hfd : Int.fdiv a (b : ℤ) = a / (b : ℤ) := Int.fdiv_eq_ediv a (le_of_lt hbZ)
  have hfl : ⌊(a : ℚ) / (b : ℚ)⌋ = a / (b : ℤ) := Rat.floor_intCast_div_natCast a b
  have hr : (a : ℚ) / (b : ℚ) - ((a / (b : ℤ) : ℤ) : ℚ)
      = ((a - (b : ℤ) * (a / (b : ℤ)) : ℤ) : ℚ) / (b : ℚ) := by
    push_cast
    field_simp
  have hiff1 : (2 * (a - (b : ℤ) * Int.fdiv a (b : ℤ)) < (b : ℤ))
      ↔ ((a : ℚ) / (b : ℚ) - (⌊(a : ℚ) / (b : ℚ)⌋ : ℚ) < 1 / 2) := by
    rw [hfd, hfl, hr, div_lt_iff₀ hbQ]
    constructor
    · intro h
      have h' : ((2 * (a - (b : ℤ) * (a / (b : ℤ))) : ℤ) : ℚ) < ((b : ℤ) : ℚ) := by
        exact_mod_cast h
      push_cast at h' ⊢
      linarith
    · intro h
      have h' : ((2 * (a - (b : ℤ) * (a / (b : ℤ))) : ℤ) : ℚ) < ((b : ℤ) : ℚ) := by
        push_cast at h ⊢
        linarith
      exact_mod_cast h'
  have hiff2 : ((b : ℤ) < 2 * (a - (b : ℤ) * Int.fdiv a (b : ℤ)))
      ↔ (1 / 2 < (a : ℚ) / (b : ℚ) - (⌊(a : ℚ) / (b : ℚ)⌋ : ℚ)) := by
    rw [hfd, hfl, hr, lt_div_iff₀ hbQ]
    constructor
    · intro h
      have h' : ((b : ℤ) : ℚ) < ((2 * (a - (b : ℤ) * (a / (b : ℤ))) : ℤ) : ℚ) := by
        exact_mod_cast h
      push_cast at h' ⊢
      linarith
    · intro h
      have h' : ((b : ℤ) : ℚ) < ((2 * (a - (b : ℤ) * (a / (b : ℤ))) : ℤ) : ℚ) := by
        push_cast at h ⊢
        linarith
      exact_mod_cast h'
  by_cases h1 : 2 * (a - (b : ℤ) * Int.fdiv a (b : ℤ)) < (b : ℤ)
  · rw [if_pos h1, if_pos (hiff1.mp h1), hfd, hfl]
  · have h1' : ¬ ((a : ℚ) / (b : ℚ) - (⌊(a : ℚ) / (b : ℚ)⌋ : ℚ) < 1 / 2) :=
      fun hc => h1 (hiff1.mpr hc)
    rw [if_neg h1, if_neg h1']
    by_cases h2 : (b : ℤ) < 2 * (a - (b : ℤ) * Int.fdiv a (b : ℤ))
    · rw [if_pos h2, if_pos (hiff2.mp h2), hfd, hfl]
    · have h2' : ¬ (1 / 2 < (a : ℚ) / (b : ℚ) - (⌊(a : ℚ) / (b : ℚ)⌋ : ℚ)) :=
        fun hc => h2 (hiff2.mpr hc)
      rw [if_neg h2, if_neg h2', hfd, hfl]

/-! Helper lemmas about the aggregation primitives. -/

theorem listMinD_mem : ∀ (xs : List Int), xs ≠ [] → listMinD xs ∈ xs
  | [], h => absurd rfl h
  | [x], _ => by simp [listMinD]
  | x :: y :: ys, _ => by
    rw [show listMinD (x :: y :: ys) = min x (listMinD (y :: ys)) from rfl]
    rcases le_total x (listMinD (y :: ys)) with h | h
    · rw [min_eq_left h]; exact List.mem_cons_self x _
    · rw [min_eq_right h]
      exact List.mem_cons_of_mem x (listMinD_mem (y :: ys) (by simp))

theorem listMinD_le : ∀ (xs : List Int) (z : Int), z ∈ xs → listMinD xs ≤ z
  | [], z, hz => absurd hz (List.not_mem_nil z)
  | [x], z, hz => by
    rcases List.mem_singleton.mp hz with rfl
    exact le_of_eq rfl
  | x :: y :: ys, z, hz => by
    rw [show listMinD (x :: y :: ys) = min x (listMinD (y :: ys)) from rfl]
    rcases List.mem_cons.mp hz with rfl | hz'
    · exact min_le_left _ _
    · exact le_trans (min_le_right _ _) (listMinD_le (y :: ys) z hz')

theorem listMaxD_mem : ∀ (xs : List Int), xs ≠ [] → listMaxD xs ∈ xs
  | [], h => absurd rfl h
  | [x], _ => by simp [listMaxD]
  | x :: y :: ys, _ => by
    rw [show listMaxD (x :: y :: ys) = max x (listMaxD (y :: ys)) from rfl]
    rcases le_total x (listMaxD (y :: ys)) with h | h
    · rw [max_eq_right h]
      exact List.mem_cons_of_mem x (listMaxD_mem (y :: ys) (by simp))
    · rw [max_eq_left h]; exact List.mem_cons_self x _

theorem le_listMaxD : ∀ (xs : List Int) (z : Int), z ∈ xs → z ≤ listMaxD xs
  | [], z, hz => absurd hz (List.not_mem_nil z)
  | [x], z, hz => by
    rcases List.mem_singleton.mp hz with rfl
    exact le_of_eq rfl
  | x :: y :: ys, z, hz => by
    rw [show listMaxD (x :: y :: ys) = max x (listMaxD (y :: ys)) from rfl]
    rcases List.mem_cons.mp hz with rfl | hz'
    · exact le_max_left _ _
    · exact le_trans (le_listMaxD (y :: ys) z hz') (le_max_right _ _)

theorem length_filterMap_of_isSome {α β : Type} (f : α → Option β) :
    ∀ (l : List α), (∀ a ∈ l, (f a).isSome) → (l.filterMap f).length = l.length
  | [], _ => rfl
  | a :: l, h => by
    rcases hfa : f a with _ | b
    · exact absurd (h a (List.mem_cons_self a l)) (by simp [hfa])
    · rw [List.filterMap_cons, hfa, List.length_cons,
        length_filterMap_of_isSome f l fun x hx => h x (List.mem_cons_of_mem a hx)]
      rfl

theorem countP_add_countP_disjoint {α : Type} (p q : α → Bool) :
    ∀ (l : List α), (∀ x ∈ l, ¬(p x = true ∧ q x = true)) →
      l.countP p + l.countP q = l.countP fun x => p x || q x
  | [], _ => rfl
  | a :: l, h => by
    have ih := countP_add_countP_disjoint p q l fun x hx =>
      h x (List.mem_cons_of_mem a hx)
    have ha := h a (List.mem_cons_self a l)
    rcases hp : p a with _ | _ <;> rcases hq : q a with _ | _
    · simpa [List.countP_cons, hp, hq] using ih
    · simp [List.countP_cons, hp, hq]
      omega
    · simp [List.countP_cons, hp, hq]
      omega
    · exact absurd ⟨hp, hq⟩ ha

theorem sum_group_lengths (l : List LongRow) :
    ∀ ks : List String, ks.Nodup →
      ((ks.map fun k => (groupOf l k).length).sum) = l.countP fun x => idInKeys ks x
  | [], _ => by
    rw [List.map_nil, List.sum_nil]
    symm
    rw [List.countP_eq_zero]
    intro x _
    rcases hid : x.IntID <;> simp [idInKeys, hid]
  | k0 :: ks, h => by
    have hnd := List.nodup_cons.mp h
    rw [List.map_cons, List.sum_cons, sum_group_lengths l ks hnd.2]
    have hgl : (groupOf l k0).length = l.countP fun x => x.IntID == some k0 := by
      rw [groupOf, ← List.countP_eq_length_filter]
    rw [hgl, countP_add_countP_disjoint _ _ l ?disj]
    case disj =>
      intro x _ hx
      rcases hid : x.IntID with _ | k
      · rw [hid] at hx; exact absurd hx.1 (by simp)
      · rw [hid] at hx
        have h1 : k = k0 := by simpa using hx.1
        have h2 : k ∈ ks := by simpa [idInKeys, hid] using hx.2
        exact hnd.1 (h1 ▸ h2)
    apply List.countP_congr
    intro x _
    rcases hid : x.IntID with _ | k <;> simp [idInKeys, hid]

/-- C1: an empty or whitespace-only question cell is normalized to missing
and classified into none of the three categories; a non-missing cell counts
as DK exactly when its trimmed string form ends with "97", RF exactly when it
ends with "99", NA exactly when it ends with "98" (suffix match); the row
counts `DK_count`/`RF_count`/`NA_count` count exactly the question columns
whose normalized cell satisfies the corresponding test; and "197", "199",
"198", "97", "1997" classify as DK, RF, NA, DK, DK respectively. -/
theorem c1_classification :
    (normalizeBlank none = none ∧ is_dk none = false ∧ is_rf none = false ∧
      is_na none = false) ∧
    (∀ s : String,
      normalizeBlank (some s) = if pyStrip s = ("") then none else some s) ∧
    (∀ s : String,
      is_dk (normalizeBlank (some s))
          = (!(pyStrip s == ("")) && pyEndsWith (pyStrip s) ("97")) ∧
      is_rf (normalizeBlank (some s))
          = (!(pyStrip s == ("")) && pyEndsWith (pyStrip s) ("99")) ∧
      is_na (normalizeBlank (some s))
          = (!(pyStrip s == ("")) && pyEndsWith (pyStrip s) ("98"))) ∧
    (∀ (qcols : List String) (r : Row),
      DK_count qcols r = (qcols.countP fun c => is_dk (qcell r c)) ∧
      RF_count qcols r = (qcols.countP fun c => is_rf (qcell r c)) ∧
      NA_count qcols r = (qcols.countP fun c => is_na (qcell r c))) ∧
    (is_dk (some ("197")) = true ∧ is_rf (some ("199")) = true ∧
      is_na (some ("198")) = true ∧ is_dk (some ("97")) = true ∧
      is_dk (some ("1997")) = true ∧ is_rf (some ("197")) = false ∧
      is_na (some ("197")) = false ∧ is_dk (some ("  ")) = false) := by
  refine ⟨⟨rfl, rfl, rfl, rfl⟩, fun s => rfl, fun s => ⟨?_, ?_, ?_⟩,
    fun qcols r => ⟨?_, ?_, ?_⟩, by decide⟩
  · by_cases h : pyStrip s = ("") <;> simp [is_dk, normalizeBlank, h]
  · by_cases h : pyStrip s = ("") <;> simp [is_rf, normalizeBlank, h]
  · by_cases h : pyStrip s = ("") <;> simp [is_na, normalizeBlank, h]
  · rw [DK_count, List.countP_map]; rfl
  · rw [RF_count, List.countP_map]; rfl
  · rw [NA_count, List.countP_map]; rfl

/-- C2: for every retained row the duration is the elapsed seconds divided
by 60 and truncated toward zero (also for negative elapsed time, which stays
negative); in particular start 2024-01-01T10:00:00Z (epoch 1704103200) and
end 2024-01-01T10:29:45Z (epoch 1704104985) give 29, and the reversed pair
gives -29. -/
theorem c2_duration :
    (∀ s e : Int, duration_minutes s e = truncQ (((e - s : Int) : ℚ) / 60)) ∧
    duration_minutes 1704103200 1704104985 = 29 ∧
    duration_minutes 1704104985 1704103200 = -29 := by
  refine ⟨fun s e => ?_, by decide, by decide⟩
  have h := tdiv_eq_truncQ (e - s) 60 (by norm_num)
  rw [duration_minutes]
  convert h using 3

/-- C3: a row with an unparseable start or end timestamp is dropped from the
entire pipeline: it yields no enriched row, and removing it from the input
leaves the duration-check table, the long-form table and the whole summary
output unchanged (the parse itself yields a missing outcome, not an error,
modelled by the `Option`-valued `Start_dt`/`End_dt` fields). -/
theorem c3_unparseable_dropped (t : InTable) (pre post : List InRow) (r : InRow)
    (hrows : t.rows = pre ++ r :: post)
    (hbad : r.Start_dt = none ∨ r.End_dt = none) :
    enrichRow t.cols r = none ∧
    enrichedRows t = enrichedRows { cols := t.cols, rows := pre ++ post } ∧
    durationCheck t = durationCheck { cols := t.cols, rows := pre ++ post } ∧
    long_df t = long_df { cols := t.cols, rows := pre ++ post } ∧
    pipelineOut t = pipelineOut { cols := t.cols, rows := pre ++ post } ∧
    exportWorkbook t = exportWorkbook { cols := t.cols, rows := pre ++ post } := by
  have hnone : enrichRow t.cols r = none := by
    unfold enrichRow
    rcases hbad with h | h
    · rw [h]
    · rw [h]
      rcases r.Start_dt <;> rfl
  have key : enrichedRows t = enrichedRows { cols := t.cols, rows := pre ++ post } := by
    unfold enrichedRows
    rw [hrows]
    simp only [List.filterMap_append, List.filterMap_cons, hnone]
  have hlong : long_df t = long_df { cols := t.cols, rows := pre ++ post } := by
    unfold long_df
    rw [key]
  refine ⟨hnone, key, ?_, hlong, ?_, ?_⟩
  · unfold durationCheck
    rw [key]
  · unfold pipelineOut
    rw [hlong]
  · unfold exportWorkbook
    rw [hlong]

/-- C3 witness: in `tDrop` the middle row `rBad` has an unparseable end
timestamp, and the pipeline output coincides with the one for the table
without it. -/
theorem c3_witness :
    enrichRow tDrop.cols rBad = none ∧
    enrichedRows tDrop = enrichedRows { cols := tDrop.cols, rows := [r1] ++ [r2] } ∧
    durationCheck tDrop = durationCheck { cols := tDrop.cols, rows := [r1] ++ [r2] } ∧
    long_df tDrop = long_df { cols := tDrop.cols, rows := [r1] ++ [r2] } ∧
    pipelineOut tDrop = pipelineOut { cols := tDrop.cols, rows := [r1] ++ [r2] } ∧
    exportWorkbook tDrop = exportWorkbook { cols := tDrop.cols, rows := [r1] ++ [r2] } :=
  c3_unparseable_dropped tDrop [r1] [r2] rBad rfl (Or.inr rfl)

/-- When at least one role resolves, the concatenation succeeds and the long
table is the role blocks flattened. -/
theorem long_df_eq (t : InTable) (hne : resolvedRoles t.cols ≠ []) :
    long_df t = Except.ok (((resolvedRoles t.cols).map fun role =>
      (enrichedRows t).map fun x => longOf (question_cols t.cols) role x).flatten) := by
  unfold long_df
  rw [if_neg]
  intro h
  rw [List.isEmpty_iff, List.map_eq_nil_iff] at h
  exact hne h

/-- Length of the flattened long table: one block per resolved role, one row
per retained respondent. -/
theorem long_df_length (t : InTable) :
    (((resolvedRoles t.cols).map fun role =>
      (enrichedRows t).map fun x => longOf (question_cols t.cols) role x).flatten).length
      = (resolvedRoles t.cols).length * (enrichedRows t).length := by
  rw [List.length_flatten, List.map_map]
  have h : (List.length ∘ fun role =>
      (enrichedRows t).map fun x => longOf (question_cols t.cols) role x)
      = fun _ => (enrichedRows t).length := by
    funext role
    exact List.length_map _ _
  rw [h, List.map_const', List.sum_replicate, smul_eq_mul]

/-- When every name column finds an id column, no role is skipped. -/
theorem resolvedRoles_length (cols : List String)
    (hall : ∀ nc ∈ interviewer_name_cols cols,
      ((interviewer_id_cols cols).find? fun c =>
        pyStartsWith c (pyRemoveAll nc ("IntName_W4"))).isSome) :
    (resolvedRoles cols).length = (interviewer_name_cols cols).length := by
  unfold resolvedRoles
  apply length_filterMap_of_isSome
  intro nc hnc
  have h := hall nc hnc
  rcases hf : (interviewer_id_cols cols).find? fun c =>
      pyStartsWith c (pyRemoveAll nc ("IntName_W4")) with _ | id_col
  · rw [hf] at h
    exact absurd h (by simp)
  · rfl

/-- C4 counterexample: in `tNoRoles` every interviewer-name column (there are
none, so the claim's hypothesis holds vacuously) has a matching id column,
yet the reshape emits no long table at all — `pd.concat` of no objects
raises — so there is no long table of length `respondents × roles` (= 0). -/
theorem c4_counterexample :
    (∀ nc ∈ interviewer_name_cols tNoRoles.cols,
      ((interviewer_id_cols tNoRoles.cols).find? fun c =>
        pyStartsWith c (pyRemoveAll nc ("IntName_W4"))).isSome) ∧
    long_df tNoRoles = Except.error ("No objects to concatenate") ∧
    (∀ l : List LongRow, ¬ (long_df tNoRoles = Except.ok l ∧
      l.length = tNoRoles.rows.length * (interviewer_name_cols tNoRoles.cols).length)) := by
  have herr : long_df tNoRoles = Except.error ("No objects to concatenate") := by decide
  refine ⟨by decide, herr, fun l hl => ?_⟩
  rw [herr] at hl
  exact Except.noConfusion hl.1

/-- C4 amended: when there is at least one interviewer-name column and every
one of them has a matching id column, the reshape emits exactly
`respondents × roles` long rows — the role blocks concatenated with no
deduplication — and every long row copies its respondent's duration and
DK/RF/NA counts and carries the respondent's count of non-missing question
cells, which is the same across all roles. -/
theorem c4_reshape (t : InTable)
    (hne : interviewer_name_cols t.cols ≠ [])
    (hall : ∀ nc ∈ interviewer_name_cols t.cols,
      ((interviewer_id_cols t.cols).find? fun c =>
        pyStartsWith c (pyRemoveAll nc ("IntName_W4"))).isSome) :
    ∃ l, long_df t = Except.ok l ∧
      l.length = (interviewer_name_cols t.cols).length * (enrichedRows t).length ∧
      l = ((resolvedRoles t.cols).map fun role =>
            (enrichedRows t).map fun x => longOf (question_cols t.cols) role x).flatten ∧
      (∀ role ∈ resolvedRoles t.cols, ∀ x ∈ enrichedRows t,
        (longOf (question_cols t.cols) role x).dur_min = x.dur_min ∧
        (longOf (question_cols t.cols) role x).DKs = x.DKs ∧
        (longOf (question_cols t.cols) role x).RFs = x.RFs ∧
        (longOf (question_cols t.cols) role x).NAs = x.NAs ∧
        (longOf (question_cols t.cols) role x).qAnswered
          = ((question_cols t.cols).countP fun c => (qcell x.cells c).isSome)) := by
  have hlen := resolvedRoles_length t.cols hall
  have hroles : resolvedRoles t.cols ≠ [] := by
    intro h
    rw [h] at hlen
    exact hne (List.length_eq_zero.mp hlen.symm)
  refine ⟨_, long_df_eq t hroles, ?_, rfl, ?_⟩
  · rw [long_df_length, hlen]
  · intro role _ x _
    refine ⟨rfl, rfl, rfl, rfl, ?_⟩
    rw [show (longOf (question_cols t.cols) role x).qAnswered
        = questions_answered (question_cols t.cols) x.cells from rfl,
      questions_answered, List.countP_map]
    rfl

/-- C4 witness: `tBasic` has the single role `"F"` with a matching id
column, two retained respondents, and hence a two-row long table. -/
theorem c4_witness :
    ∃ l, long_df tBasic = Except.ok l ∧
      l.length = (interviewer_name_cols tBasic.cols).length * (enrichedRows tBasic).length ∧
      l = ((resolvedRoles tBasic.cols).map fun role =>
            (enrichedRows tBasic).map fun x => longOf (question_cols tBasic.cols) role x).flatten ∧
      (∀ role ∈ resolvedRoles tBasic.cols, ∀ x ∈ enrichedRows tBasic,
        (longOf (question_cols tBasic.cols) role x).dur_min = x.dur_min ∧
        (longOf (question_cols tBasic.cols) role x).DKs = x.DKs ∧
        (longOf (question_cols tBasic.cols) role x).RFs = x.RFs ∧
        (longOf (question_cols tBasic.cols) role x).NAs = x.NAs ∧
        (longOf (question_cols tBasic.cols) role x).qAnswered
          = ((question_cols tBasic.cols).countP fun c => (qcell x.cells c).isSome)) :=
  c4_reshape tBasic (by decide) (by decide)

/-- C7 counterexample: in `tNoIds` the single role `"F"` has a name column
but no id column; the role is excluded, the reshape is left with no role at
all, and `pd.concat` raises instead of completing — the pipeline produces no
output. -/
theorem c7_counterexample :
    interviewer_name_cols tNoIds.cols = [("FIntName_W4")] ∧
    interviewer_id_cols tNoIds.cols = [] ∧
    resolvedRoles tNoIds.cols = [] ∧
    long_df tNoIds = Except.error ("No objects to concatenate") ∧
    (∀ out, pipelineOut tNoIds ≠ Except.ok out) := by
  have herr : pipelineOut tNoIds = Except.error ("No objects to concatenate") := by decide
  refine ⟨by decide, by decide, by decide, by decide, fun out h => ?_⟩
  rw [herr] at h
  exact Except.noConfusion h

/-- C7 amended: a role whose name column finds no id column is silently
excluded from the reshape — no resolved role carries its name column — and
when at least one other role resolves, the pipeline completes, its long
table built from the remaining roles only. -/
theorem c7_role_skip (t : InTable) (nc : String)
    (h1 : nc ∈ interviewer_name_cols t.cols)
    (h2 : ((interviewer_id_cols t.cols).find? fun c =>
      pyStartsWith c (pyRemoveAll nc ("IntName_W4"))) = none)
    (hne : resolvedRoles t.cols ≠ []) :
    (∀ role ∈ resolvedRoles t.cols, role.1 ≠ nc) ∧
    ∃ l, long_df t = Except.ok l ∧
      l = ((resolvedRoles t.cols).map fun role =>
            (enrichedRows t).map fun x => longOf (question_cols t.cols) role x).flatten ∧
      l.length = (resolvedRoles t.cols).length * (enrichedRows t).length := by
  refine ⟨?_, _, long_df_eq t hne, rfl, long_df_length t⟩
  intro role hrole heq
  rcases List.mem_filterMap.mp hrole with ⟨nc', _, hf⟩
  rcases hfind : ((interviewer_id_cols t.cols).find? fun c =>
      pyStartsWith c (pyRemoveAll nc' ("IntName_W4"))) with _ | id_col
  · rw [hfind] at hf
    exact Option.noConfusion hf
  · rw [hfind] at hf
    have hpair := Option.some.inj hf
    have hnc' : nc' = nc := by
      rw [← heq, ← hpair]
    rw [hnc'] at hfind
    rw [h2] at hfind
    exact Option.noConfusion hfind

/-- C7 witness: in `tTwoRolesOneId` role `"F"` has no id column and is
skipped, while role `"M"` resolves and the pipeline completes with the
one-role long table. -/
theorem c7_witness :
    (∀ role ∈ resolvedRoles tTwoRolesOneId.cols, role.1 ≠ ("FIntName_W4")) ∧
    ∃ l, long_df tTwoRolesOneId = Except.ok l ∧
      l = ((resolvedRoles tTwoRolesOneId.cols).map fun role =>
            (enrichedRows tTwoRolesOneId).map fun x =>
              longOf (question_cols tTwoRolesOneId.cols) role x).flatten ∧
      l.length = (resolvedRoles tTwoRolesOneId.cols).length
          * (enrichedRows tTwoRolesOneId).length :=
  c7_role_skip tTwoRolesOneId ("FIntName_W4") (by decide) (by decide) (by decide)

/-- An id appearing in the long table is a group key, and its aggregation
row is in the sorted summary. -/
theorem mkSum_mem_sortedSummary (l : List LongRow) (k : String)
    (h : ∃ x ∈ l, x.IntID = some k) : mkSum l k ∈ sortedSummary l := by
  obtain ⟨x, hxl, hxid⟩ := h
  have hkeys : k ∈ groupKeys l := by
    rw [groupKeys, List.mem_insertionSort, List.mem_dedup]
    exact List.mem_filterMap.mpr ⟨x, hxl, by rw [hxid]⟩
  rw [sortedSummary, List.mem_insertionSort]
  exact List.mem_map_of_mem _ hkeys

/-- The group of an appearing id is nonempty. -/
theorem groupOf_ne_nil (l : List LongRow) (k : String)
    (h : ∃ x ∈ l, x.IntID = some k) : groupOf l k ≠ [] := by
  obtain ⟨x, hxl, hxid⟩ := h
  have hgrp : x ∈ groupOf l k := by
    rw [groupOf, List.mem_filter]
    refine ⟨hxl, ?_⟩
    rw [hxid]
    exact beq_self_eq_true _
  intro hnil
  rw [hnil] at hgrp
  exact List.not_mem_nil x hgrp

/-- C5: for every interviewer id appearing in the long table, the summary
contains a row for that id whose `total_interviews` is the number of long
rows with that id, whose `avg_duration_minutes` is the arithmetic mean of
their durations, whose min/max duration columns are an attained minimum and
maximum of those durations, whose `total_DK`/`total_RF`/`total_NA` are the
sums of the rows' counts, and whose `IntName` is the first-occurring name
for that id (pandas `"first"`: the first non-missing name in the group). -/
theorem c5_aggregation (l : List LongRow) (k : String)
    (h : ∃ x ∈ l, x.IntID = some k) :
    ∃ s ∈ sortedSummary l,
      s.IntID = k ∧
      s.total_interviews = (groupOf l k).length ∧
      SumRow.avg_duration_minutes s
        = ((((groupOf l k).map fun x => x.dur_min).sum : Int) : ℚ)
            / (((groupOf l k).length : Nat) : ℚ) ∧
      s.min_duration_minutes ∈ ((groupOf l k).map fun x => x.dur_min) ∧
      (∀ d ∈ (groupOf l k).map fun x => x.dur_min, s.min_duration_minutes ≤ d) ∧
      s.max_duration_minutes ∈ ((groupOf l k).map fun x => x.dur_min) ∧
      (∀ d ∈ (groupOf l k).map fun x => x.dur_min, d ≤ s.max_duration_minutes) ∧
      s.total_DK = ((groupOf l k).map fun x => x.DKs).sum ∧
      s.total_RF = ((groupOf l k).map fun x => x.RFs).sum ∧
      s.total_NA = ((groupOf l k).map fun x => x.NAs).sum ∧
      s.IntName = ((groupOf l k).filterMap fun x => x.IntName).head? := by
  have hne : ((groupOf l k).map fun x => x.dur_min) ≠ [] := by
    intro hnil
    rw [List.map_eq_nil_iff] at hnil
    exact groupOf_ne_nil l k h hnil
  exact ⟨mkSum l k, mkSum_mem_sortedSummary l k h, rfl, rfl, rfl,
    listMinD_mem _ hne, fun d hd => listMinD_le _ d hd, listMaxD_mem _ hne,
    fun d hd => le_listMaxD _ d hd, rfl, rfl, rfl, rfl⟩

/-- C5 witness: id "3" appears in `lBasic` and gets the stated summary
row. -/
theorem c5_witness :
    ∃ s ∈ sortedSummary lBasic,
      s.IntID = ("3") ∧
      s.total_interviews = (groupOf lBasic ("3")).length ∧
      SumRow.avg_duration_minutes s
        = ((((groupOf lBasic ("3")).map fun x => x.dur_min).sum : Int) : ℚ)
            / (((groupOf lBasic ("3")).length : Nat) : ℚ) ∧
      s.min_duration_minutes ∈ ((groupOf lBasic ("3")).map fun x => x.dur_min) ∧
      (∀ d ∈ (groupOf lBasic ("3")).map fun x => x.dur_min,
        s.min_duration_minutes ≤ d) ∧
      s.max_duration_minutes ∈ ((groupOf lBasic ("3")).map fun x => x.dur_min) ∧
      (∀ d ∈ (groupOf lBasic ("3")).map fun x => x.dur_min,
        d ≤ s.max_duration_minutes) ∧
      s.total_DK = ((groupOf lBasic ("3")).map fun x => x.DKs).sum ∧
      s.total_RF = ((groupOf lBasic ("3")).map fun x => x.RFs).sum ∧
      s.total_NA = ((groupOf lBasic ("3")).map fun x => x.NAs).sum ∧
      s.IntName = ((groupOf lBasic ("3")).filterMap fun x => x.IntName).head? :=
  c5_aggregation lBasic ("3") (by decide)

/-- C6: summary rows are ordered by the interviewer id parsed as a number,
ascending, ids that fail the numeric parse last (a failed parse never
precedes a successful one); and on the scenario table with one role `"F"`
and id values `"5"` and `"3"`, the summary lists id `"3"` before id `"5"`,
each with `total_interviews = 1`. -/
theorem c6_sort :
    (∀ l : List LongRow, List.Pairwise (fun a b : SumRow =>
      (match toNumeric a.IntID, toNumeric b.IntID with
       | some x, some y => x ≤ y
       | some _, none => True
       | none, some _ => False
       | none, none => True)) (sortedSummary l)) ∧
    Except.map (fun os => os.map fun s => (s.IntID, s.total_interviews))
        (pipelineOut tBasic)
      = Except.ok [(("3"), 1), (("5"), 1)] := by
  refine ⟨fun l => ?_, by decide⟩
  have h := List.sorted_insertionSort sumLe ((groupKeys l).map fun k => mkSum l k)
  exact h.imp fun hab => hab

/-- C8 counterexample: on `tHalf` the single group has questions-answered
sum 5 over 2 interviews, a mean of 5/2; the pipeline emits `avg_questions`
2 (numpy rounds half to even), while the claim's half-up rounding of that
mean is 3. -/
theorem c8_counterexample :
    Except.map (fun os => os.map fun s => s.avg_questions) (pipelineOut tHalf)
      = Except.ok [2] ∧
    Except.map (fun ls => (sortedSummary ls).map fun s => (s.q_sum, s.total_interviews))
        (long_df tHalf) = Except.ok [(5, 2)] ∧
    roundHalfUp (meanQ (5 : Int) 2) = 3 ∧
    (2 : Int) ≠ 3 := by
  refine ⟨by decide, by decide, ?_, by decide⟩
  have h : meanQ (5 : Int) 2 + 1 / 2 = (3 : ℚ) := by
    rw [meanQ]
    norm_num
  rw [roundHalfUp, h]
  norm_num

/-- C8 amended: `avg_questions` is the group's questions-answered mean
rounded half-to-even (numpy `round(0)` semantics): a mean of 5/2 yields 2
and a mean of 7/2 yields 4. -/
theorem c8_avg_questions (l : List LongRow) (k : String)
    (h : ∃ x ∈ l, x.IntID = some k) :
    (∃ o ∈ outRows l, o.IntID = k ∧
      o.avg_questions = roundHalfEvenQ (meanQ
        ((((groupOf l k).map fun x => x.qAnswered).sum : Nat) : Int)
        (groupOf l k).length)) ∧
    roundHalfEvenQ ((5 : ℚ) / 2) = 2 ∧ roundHalfEvenQ ((7 : ℚ) / 2) = 4 := by
  refine ⟨⟨formatRow (mkSum l k),
      List.mem_map_of_mem _ (mkSum_mem_sortedSummary l k h), rfl, ?_⟩, ?_, ?_⟩
  · have hlen : 0 < (groupOf l k).length :=
      List.length_pos.mpr (groupOf_ne_nil l k h)
    exact roundHalfEvenDiv_eq _ _ hlen
  · have h1 : meanQ (5 : Int) 2 = (5 : ℚ) / 2 := by
      rw [meanQ]
      norm_num
    rw [← h1, ← roundHalfEvenDiv_eq 5 2 (by norm_num)]
    decide
  · have h1 : meanQ (7 : Int) 2 = (7 : ℚ) / 2 := by
      rw [meanQ]
      norm_num
    rw [← h1, ← roundHalfEvenDiv_eq 7 2 (by norm_num)]
    decide

/-- C8 witness: in `lHalf` id "7" appears, its questions mean is 5/2, and
the emitted `avg_questions` is its half-to-even rounding. -/
theorem c8_witness :
    (∃ x ∈ lHalf, x.IntID = some ("7")) ∧
    ((∃ o ∈ outRows lHalf, o.IntID = ("7") ∧
      o.avg_questions = roundHalfEvenQ (meanQ
        ((((groupOf lHalf ("7")).map fun x => x.qAnswered).sum : Nat) : Int)
        (groupOf lHalf ("7")).length)) ∧
    roundHalfEvenQ ((5 : ℚ) / 2) = 2 ∧ roundHalfEvenQ ((7 : ℚ) / 2) = 4) :=
  ⟨by decide, c8_avg_questions lHalf ("7") (by decide)⟩

/-- C9 counterexample: the export writes the single sheet
"Interviewer Stats", but its columns are all thirteen `final_df` columns,
not exactly the ten the claim lists: the numeric `avg_duration_minutes`
(and min/max) columns are also exported. -/
theorem c9_counterexample :
    Except.map (fun wb => wb.sheets.map fun sh => (sh.title, sh.header))
        (exportWorkbook tBasic)
      = Except.ok [(("Interviewer Stats"), final_df_cols)] ∧
    final_df_cols ≠ claimedExportCols ∧
    ("avg_duration_minutes") ∈ final_df_cols ∧
    ¬ (("avg_duration_minutes") ∈ claimedExportCols) :=
  ⟨by decide, by decide, by decide, by decide⟩

/-- C9 amended: the workbook has a single sheet named "Interviewer Stats"
whose columns are the ten claimed display columns plus the three numeric
duration columns `avg/min/max_duration_minutes` (thirteen in dataframe
order), with rows in the Aggregator's sorted order. -/
theorem c9_export (t : InTable) (l : List LongRow)
    (h : long_df t = Except.ok l) :
    ∃ wb, exportWorkbook t = Except.ok wb ∧
      wb.sheets.length = 1 ∧
      ∀ sh ∈ wb.sheets,
        sh.title = ("Interviewer Stats") ∧
        sh.header = final_df_cols ∧
        (∀ c ∈ claimedExportCols, c ∈ sh.header) ∧
        sh.header.length = claimedExportCols.length + 3 ∧
        sh.rows = outRows l := by
  refine ⟨Workbook.mk [Sheet.mk ("Interviewer Stats") final_df_cols (outRows l)],
    ?_, rfl, ?_⟩
  · rw [exportWorkbook, h]
    rfl
  · intro sh hsh
    rcases List.mem_singleton.mp hsh with rfl
    refine ⟨rfl, rfl, ?_, ?_, rfl⟩
    · show ∀ c ∈ claimedExportCols, c ∈ final_df_cols
      decide
    · show final_df_cols.length = claimedExportCols.length + 3
      decide

/-- C9 witness: the export of `tBasic`. -/
theorem c9_witness :
    ∃ wb, exportWorkbook tBasic = Except.ok wb ∧
      wb.sheets.length = 1 ∧
      ∀ sh ∈ wb.sheets,
        sh.title = ("Interviewer Stats") ∧
        sh.header = final_df_cols ∧
        (∀ c ∈ claimedExportCols, c ∈ sh.header) ∧
        sh.header.length = claimedExportCols.length + 3 ∧
        sh.rows = outRows lBasic :=
  c9_export tBasic lBasic (by decide)

/-- C10: every summary row's id comes from a long row with a non-missing
id; a long row with a missing id belongs to no group; the summary's
`total_interviews` sum up to the number of long rows with a non-missing id;
and on `tMissingId` that sum is 1 while the long table has 2 rows. -/
theorem c10_missing_ids :
    (∀ (l : List LongRow) (o : OutRow), o ∈ outRows l →
      ∃ x ∈ l, x.IntID = some o.IntID) ∧
    (∀ (l : List LongRow) (x : LongRow), x ∈ l → x.IntID = none →
      ∀ k, x ∉ groupOf l k) ∧
    (∀ l : List LongRow,
      ((outRows l).map fun o => o.total_interviews).sum
        = l.countP fun x => x.IntID.isSome) ∧
    Except.map (fun os => (os.map fun o => o.total_interviews).sum)
        (pipelineOut tMissingId) = Except.ok 1 ∧
    Except.map (fun ls => ls.length) (long_df tMissingId) = Except.ok 2 := by
  refine ⟨?_, ?_, ?_, by decide, by decide⟩
  · intro l o ho
    rcases List.mem_map.mp ho with ⟨s, hs, rfl⟩
    rw [sortedSummary, List.mem_insertionSort] at hs
    rcases List.mem_map.mp hs with ⟨k, hk, rfl⟩
    rw [groupKeys, List.mem_insertionSort, List.mem_dedup] at hk
    rcases List.mem_filterMap.mp hk with ⟨x, hxl, hid⟩
    exact ⟨x, hxl, hid⟩
  · intro l x _ hnone k hmem
    rw [groupOf, List.mem_filter, hnone] at hmem
    simpa using hmem.2
  · intro l
    rw [outRows, List.map_map]
    rw [show ((fun o : OutRow => o.total_interviews) ∘ formatRow)
        = fun s : SumRow => s.total_interviews from rfl]
    have hperm : List.Perm (sortedSummary l)
        ((groupKeys l).map fun k => mkSum l k) := List.perm_insertionSort _ _
    rw [(hperm.map fun s : SumRow => s.total_interviews).sum_eq, List.map_map]
    rw [show ((fun s : SumRow => s.total_interviews) ∘ fun k => mkSum l k)
        = fun k => (groupOf l k).length from rfl]
    have hnd : (groupKeys l).Nodup :=
      (List.perm_insertionSort _ _).symm.nodup
        (List.nodup_dedup (l.filterMap fun x => x.IntID))
    rw [sum_group_lengths l (groupKeys l) hnd]
    apply List.countP_congr
    intro x hx
    rcases hid : x.IntID with _ | k
    · simp [idInKeys, hid]
    · have hk : k ∈ groupKeys l := by
        rw [groupKeys, List.mem_insertionSort, List.mem_dedup]
        exact List.mem_filterMap.mpr ⟨x, hx, by rw [hid]⟩
      simp [idInKeys, hid, hk]

/-- C10 witness: the summary row of `lMissing` traces back to the long row
with id "7". -/
theorem c10_witness :
    ∃ x ∈ lMissing, x.IntID = some (oMissing.IntID) :=
  c10_missing_ids.1 lMissing oMissing (by decide)

end SummaryPipeline
